import Mathlib

/-!
Shallow embedding of the simulation core of `src/components/FlappyBirdGame.tsx`
(the Flappy Bird style beach-volleyball game). Coordinates and velocities are
modelled as rationals; the per-frame update `gameLoop` becomes the pure step
function `tick`, parameterised by the random draw `r` in `[0,1)` that the
JavaScript code obtains from `Math.random()` at a spawn site. Only one spawn
branch can run per tick, so a single draw suffices.
-/

namespace Flappy

/-- The player-controlled entity (`interface Bird`). -/
structure Bird where
  x : ℚ
  y : ℚ
  velocity : ℚ
  radius : ℚ
deriving DecidableEq

/-- A scrolling obstacle (`interface Pipe`). -/
structure Pipe where
  x : ℚ
  width : ℚ
  gapY : ℚ
  gapHeight : ℚ
  passed : Bool
deriving DecidableEq

/-- The transient explosion effect (`explosion` field of `GameState`). -/
structure Explosion where
  active : Bool
  x : ℚ
  y : ℚ
  frame : ℕ
deriving DecidableEq

/-- The whole session state (`interface GameState`). -/
structure GameState where
  bird : Bird
  pipes : List Pipe
  score : ℕ
  gameStarted : Bool
  gameOver : Bool
  explosion : Explosion
deriving DecidableEq

def BASE_WIDTH : ℚ := 400
def BASE_HEIGHT : ℚ := 600
def BIRD_SIZE : ℚ := 20
def PIPE_WIDTH : ℚ := 60
def PIPE_GAP : ℚ := 200
def GRAVITY : ℚ := 3 / 10
def JUMP_FORCE : ℚ := -7
def PIPE_SPEED : ℚ := 2

/-- The literal passed to `useState<GameState>`. -/
def initialState : GameState :=
  { bird := { x := BASE_WIDTH / 4, y := BASE_HEIGHT / 2, velocity := 0,
              radius := BIRD_SIZE / 2 }
    pipes := []
    score := 0
    gameStarted := false
    gameOver := false
    explosion := { active := false, x := 0, y := 0, frame := 0 } }

/-- `resetGame`: replaces the state wholesale with the initial literal. -/
def resetGame : GameState :=
  { bird := { x := BASE_WIDTH / 4, y := BASE_HEIGHT / 2, velocity := 0,
              radius := BIRD_SIZE / 2 }
    pipes := []
    score := 0
    gameStarted := false
    gameOver := false
    explosion := { active := false, x := 0, y := 0, frame := 0 } }

/-- `jump`: the single input action, dispatched on the current flags. -/
def jump (s : GameState) : GameState :=
  if !s.gameStarted && !s.gameOver then
    { s with gameStarted := true, bird := { s.bird with velocity := JUMP_FORCE } }
  else if s.gameStarted && !s.gameOver then
    { s with bird := { s.bird with velocity := JUMP_FORCE } }
  else if s.gameOver then
    resetGame
  else
    s

/-- `createPipe`: builds a pipe at `x` from the random draw `r` standing for
the call to `Math.random()`; the spawn sites inside `gameLoop` build the very
same record with the same `gapY` formula. -/
def createPipe (x r : ℚ) : Pipe :=
  { x := x
    width := PIPE_WIDTH
    gapY := r * (BASE_HEIGHT - PIPE_GAP - 100) + 50
    gapHeight := PIPE_GAP
    passed := false }

/-- `checkCollision`: boundary test, then first pipe whose horizontal span
overlaps and whose gap band does not contain the vertical span. -/
def checkCollision (b : Bird) (ps : List Pipe) : Bool :=
  if b.y - b.radius ≤ 0 ∨ b.y + b.radius ≥ BASE_HEIGHT then
    true
  else
    ps.any fun p =>
      (decide (b.x + b.radius > p.x) && decide (b.x - b.radius < p.x + p.width)) &&
      (decide (b.y - b.radius < p.gapY) || decide (b.y + b.radius > p.gapY + p.gapHeight))

/-- The pipe-movement line of `gameLoop`: every x decreases by `PIPE_SPEED`. -/
def movePipes (ps : List Pipe) : List Pipe :=
  ps.map fun p => { p with x := p.x - PIPE_SPEED }

/-- One iteration of the scoring `forEach`: mark a pipe passed once the bird
x is beyond its right edge. -/
def markPipe (bx : ℚ) (p : Pipe) : Pipe :=
  if !p.passed && decide (bx > p.x + p.width) then { p with passed := true } else p

/-- The scoring `forEach` applied to the whole (already moved) sequence. -/
def markPassedList (bx : ℚ) (ps : List Pipe) : List Pipe :=
  ps.map (markPipe bx)

/-- The number of score increments the `forEach` performs this tick. -/
def scoreGain (bx : ℚ) (ps : List Pipe) : ℕ :=
  ps.countP fun p => !p.passed && decide (bx > p.x + p.width)

/-- The removal `filter`: drop pipes fully off the left edge. -/
def cullPipes (ps : List Pipe) : List Pipe :=
  ps.filter fun p => decide (p.x + p.width > 0)

/-- The spawn policy at the end of the physics block of `gameLoop`. -/
def spawnStep (r : ℚ) (ps : List Pipe) : List Pipe :=
  match ps with
  | [] => [createPipe (BASE_WIDTH + 150) r]
  | q :: qs =>
      if ((q :: qs).getLast (List.cons_ne_nil q qs)).x < BASE_WIDTH - 200 then
        (q :: qs) ++ [createPipe BASE_WIDTH r]
      else
        q :: qs

/-- The explosion-animation block at the end of `gameLoop`. -/
def stepExplosion (e : Explosion) : Explosion :=
  if e.active then
    let f := e.frame + 1
    if f > 30 then { e with frame := f, active := false }
    else { e with frame := f }
  else e

/-- One invocation of the `setGameState` updater inside `gameLoop`. -/
def tick (s : GameState) (r : ℚ) : GameState :=
  if s.gameOver then s
  else
    let bird1 : Bird :=
      if s.gameStarted then
        let v := s.bird.velocity + GRAVITY
        { s.bird with velocity := v, y := s.bird.y + v }
      else s.bird
    let pipes1 : List Pipe :=
      if s.gameStarted then
        spawnStep r (cullPipes (markPassedList s.bird.x (movePipes s.pipes)))
      else s.pipes
    let score1 : ℕ :=
      if s.gameStarted then s.score + scoreGain s.bird.x (movePipes s.pipes)
      else s.score
    let collision : Bool :=
      if s.gameStarted then checkCollision bird1 pipes1 else false
    let explosion1 : Explosion :=
      if collision then { active := true, x := bird1.x, y := bird1.y, frame := 0 }
      else s.explosion
    { s with
        bird := bird1
        pipes := pipes1
        score := score1
        gameOver := collision
        explosion := stepExplosion explosion1 }

/-! Concrete states used to instantiate the theorems below. -/

/-- A bird whose bottom edge is exactly tangent to the top bound. -/
def tangentBird : Bird := { x := 100, y := 10, velocity := 0, radius := 10 }

/-- A running state one tick away from hitting the bottom bound. -/
def preCrashState : GameState :=
  { bird := { x := 100, y := 595, velocity := 0, radius := 10 }
    pipes := [{ x := 300, width := 60, gapY := 200, gapHeight := 200, passed := false }]
    score := 0
    gameStarted := true
    gameOver := false
    explosion := { active := false, x := 0, y := 0, frame := 0 } }

/-- The state `tick` produces from `preCrashState`: crashed, explosion frozen
at frame 1. -/
def postCrashState : GameState :=
  { bird := { x := 100, y := 5953 / 10, velocity := 3 / 10, radius := 10 }
    pipes := [{ x := 298, width := 60, gapY := 200, gapHeight := 200, passed := false }]
    score := 0
    gameStarted := true
    gameOver := true
    explosion := { active := true, x := 100, y := 5953 / 10, frame := 1 } }

/-- A game-over state. -/
def overState : GameState :=
  { initialState with gameOver := true }

end Flappy

namespace Flappy

/-- C1 (amended): the collision predicate returns true iff the bird vertical
span reaches or exits the playfield interval [0, 600] (the boundary
comparisons are inclusive, so an edge exactly tangent to the top or bottom
bound already collides), or some pipe whose horizontal span strictly overlaps
the bird horizontal span has the bird vertical span not fully inside its gap
band [gapY, gapY + gapHeight] (those comparisons are strict, so tangency to
the gap band edges does not collide). -/
theorem checkCollision_characterization (b : Bird) (ps : List Pipe) :
    checkCollision b ps = true ↔
      b.y - b.radius ≤ 0 ∨ b.y + b.radius ≥ BASE_HEIGHT ∨
        ∃ p ∈ ps,
          (b.x + b.radius > p.x ∧ b.x - b.radius < p.x + p.width) ∧
          ¬ (p.gapY ≤ b.y - b.radius ∧ b.y + b.radius ≤ p.gapY + p.gapHeight) := by
  unfold checkCollision
  split
  · rename_i h
    simp only [true_iff]
    tauto
  · rename_i h
    push_neg at h
    have hA : ¬ (b.y - b.radius ≤ 0) := not_le.mpr h.1
    have hB : ¬ (b.y + b.radius ≥ BASE_HEIGHT) := not_le.mpr h.2
    simp [List.any_eq_true, hA, hB, not_and_or, not_le, and_assoc, imp_iff_not_or]

/-- C1 counterexample: a bird whose lower edge is exactly tangent to the top
bound (y - radius = 0), with no pipes, is reported as colliding by the code,
while the claim says a tangent edge is non-colliding. -/
theorem tangent_is_colliding :
    checkCollision tangentBird [] = true ∧
    tangentBird.y - tangentBird.radius = 0 ∧
    0 ≤ tangentBird.y - tangentBird.radius ∧
    tangentBird.y + tangentBird.radius ≤ BASE_HEIGHT := by
  norm_num [checkCollision, tangentBird, BASE_HEIGHT]

/-- C2 (code behaviour at the failing input): the crash tick activates the
explosion and steps its counter to 1, but it also sets gameOver, and every
later tick returns the state unchanged, so the counter never advances past 1
and the effect never deactivates, contradicting the claim that each tick
while active increments the counter until it exceeds 30. -/
theorem explosion_frozen_after_crash :
    tick preCrashState 0 = postCrashState ∧
    postCrashState.explosion.active = true ∧
    postCrashState.explosion.frame = 1 ∧
    postCrashState.gameOver = true ∧
    tick postCrashState 0 = postCrashState := by
  refine ⟨?_, rfl, rfl, rfl, by simp [tick, postCrashState]⟩
  norm_num [tick, preCrashState, postCrashState, checkCollision, spawnStep, cullPipes,
    markPassedList, markPipe, movePipes, scoreGain, createPipe, stepExplosion,
    GRAVITY, PIPE_SPEED, BASE_WIDTH, BASE_HEIGHT, PIPE_WIDTH, PIPE_GAP]

/-- C3: once gameOver is true, a tick returns the state completely
unchanged (bird, pipes, score, flags, explosion), until an explicit reset. -/
theorem tick_frozen_when_over (s : GameState) (r : ℚ) (h : s.gameOver = true) :
    tick s r = s := by
  simp [tick, h]

/-- Witness for C3 at a concrete game-over state. -/
theorem tick_frozen_when_over_witness :
    overState.gameOver = true ∧ tick overState 0 = overState :=
  ⟨rfl, tick_frozen_when_over overState 0 rfl⟩

/-- C4: before the session starts, a tick leaves the bird (position and
velocity), the pipe sequence, the score and the gameOver flag unchanged. -/
theorem tick_idle_before_start (s : GameState) (r : ℚ) (h : s.gameStarted = false) :
    (tick s r).bird = s.bird ∧ (tick s r).pipes = s.pipes ∧
    (tick s r).score = s.score ∧ (tick s r).gameOver = s.gameOver := by
  cases ho : s.gameOver
  · simp [tick, h, ho]
  · simp [tick, ho]

/-- Witness for C4 at the initial state. -/
theorem tick_idle_before_start_witness :
    initialState.gameStarted = false ∧
    ((tick initialState 0).bird = initialState.bird ∧
     (tick initialState 0).pipes = initialState.pipes ∧
     (tick initialState 0).score = initialState.score ∧
     (tick initialState 0).gameOver = initialState.gameOver) :=
  ⟨rfl, tick_idle_before_start initialState 0 rfl⟩

/-- C5: while the game is not over, jump sets the velocity to exactly
JUMP_FORCE whatever it was before, leaves the bird position and radius, the
pipes, the score and the gameOver flag unchanged, and leaves gameStarted
true (flipping it to true when it was false). -/
theorem jump_sets_fixed_impulse (s : GameState) (h : s.gameOver = false) :
    (jump s).bird.velocity = JUMP_FORCE ∧
    (jump s).bird.x = s.bird.x ∧ (jump s).bird.y = s.bird.y ∧
    (jump s).bird.radius = s.bird.radius ∧
    (jump s).gameStarted = true ∧
    (jump s).pipes = s.pipes ∧ (jump s).score = s.score ∧
    (jump s).gameOver = false := by
  cases hs : s.gameStarted <;> simp [jump, h, hs]

/-- Witness for C5 at the initial state. -/
theorem jump_sets_fixed_impulse_witness :
    initialState.gameOver = false ∧
    ((jump initialState).bird.velocity = JUMP_FORCE ∧
     (jump initialState).bird.x = initialState.bird.x ∧
     (jump initialState).bird.y = initialState.bird.y ∧
     (jump initialState).bird.radius = initialState.bird.radius ∧
     (jump initialState).gameStarted = true ∧
     (jump initialState).pipes = initialState.pipes ∧
     (jump initialState).score = initialState.score ∧
     (jump initialState).gameOver = false) :=
  ⟨rfl, jump_sets_fixed_impulse initialState rfl⟩

end Flappy

namespace Flappy

/-- Marking preserves every field except the flag. -/
lemma markPipe_passed (bx : ℚ) (p : Pipe) :
    (markPipe bx p).passed = (p.passed || decide (bx > p.x + p.width)) := by
  cases hp : p.passed <;> by_cases hg : bx > p.x + p.width <;> simp [markPipe, hp, hg]

/-- The number of passed flags grows by exactly the score gain. -/
lemma countP_markPassedList (bx : ℚ) (ps : List Pipe) :
    (markPassedList bx ps).countP (fun q => q.passed)
      = ps.countP (fun q => q.passed) + scoreGain bx ps := by
  induction ps with
  | nil => simp [markPassedList, scoreGain]
  | cons q t ih =>
      cases hq : q.passed <;> by_cases hg : bx > q.x + q.width <;>
        simp [markPassedList, scoreGain, markPipe, List.countP_cons, hq, hg] at ih ⊢ <;>
        omega

/-- C6: marking sets the flag exactly when the bird x is beyond the right
edge of the (already moved) pipe, an already passed pipe is left untouched
(so it can never score again and the flag never reverts), the number of set
flags grows by exactly the score gain (one increment per transition), and a
started, not-over tick adds exactly that gain to the score. -/
theorem passed_flag_scores_once (bx : ℚ) (p : Pipe) (ps : List Pipe)
    (s : GameState) (r : ℚ)
    (hs : s.gameStarted = true) (ho : s.gameOver = false) :
    (markPipe bx p).passed = (p.passed || decide (bx > p.x + p.width)) ∧
    (markPipe bx p).x = p.x ∧
    (p.passed = true → markPipe bx p = p) ∧
    (markPassedList bx ps).countP (fun q => q.passed)
      = ps.countP (fun q => q.passed) + scoreGain bx ps ∧
    (tick s r).score = s.score + scoreGain s.bird.x (movePipes s.pipes) := by
  refine ⟨markPipe_passed bx p, ?_, ?_, countP_markPassedList bx ps, ?_⟩
  · by_cases hg : !p.passed && decide (bx > p.x + p.width) <;> simp [markPipe, hg]
  · intro hp; simp [markPipe, hp]
  · simp [tick, hs, ho]

/-- A started state with one pipe the bird passes this tick. -/
def passingState : GameState :=
  { bird := { x := 100, y := 300, velocity := 0, radius := 10 }
    pipes := [{ x := 40, width := 60, gapY := 200, gapHeight := 200, passed := false }]
    score := 0
    gameStarted := true
    gameOver := false
    explosion := { active := false, x := 0, y := 0, frame := 0 } }

/-- Witness for C6: with the pipe moved to x = 38 the bird x = 100 is past
its right edge 98, so the flag is set and the tick adds 1 to the score. -/
theorem passed_flag_scores_once_witness :
    passingState.gameStarted = true ∧
    (tick passingState 0).score
      = passingState.score + scoreGain passingState.bird.x (movePipes passingState.pipes) ∧
    scoreGain passingState.bird.x (movePipes passingState.pipes) = 1 := by
  refine ⟨rfl,
    (passed_flag_scores_once 0 ⟨0, 60, 50, 200, false⟩ [] passingState 0 rfl rfl).2.2.2.2, ?_⟩
  norm_num [scoreGain, movePipes, passingState, PIPE_SPEED, List.countP_cons]

end Flappy

namespace Flappy

/-- The pipe sequence after this tick's movement, scoring and removal. -/
def survivors (s : GameState) : List Pipe :=
  cullPipes (markPassedList s.bird.x (movePipes s.pipes))

lemma spawnStep_nil (r : ℚ) :
    spawnStep r [] = [createPipe (BASE_WIDTH + 150) r] := rfl

lemma spawnStep_last_lt (r : ℚ) (ps : List Pipe) (h : ps ≠ [])
    (hlt : (ps.getLast h).x < BASE_WIDTH - 200) :
    spawnStep r ps = ps ++ [createPipe BASE_WIDTH r] := by
  cases ps with
  | nil => exact absurd rfl h
  | cons q qs => simp only [spawnStep]; rw [if_pos hlt]

lemma spawnStep_last_ge (r : ℚ) (ps : List Pipe) (h : ps ≠ [])
    (hge : ¬ (ps.getLast h).x < BASE_WIDTH - 200) :
    spawnStep r ps = ps := by
  cases ps with
  | nil => exact absurd rfl h
  | cons q qs => simp only [spawnStep]; rw [if_neg hge]

/-- C7: on a started, not-over tick, if the moved-and-culled sequence is
empty exactly one pipe is appended at x = BASE_WIDTH + 150; otherwise, if the
last (most recently spawned) pipe has x below BASE_WIDTH - 200, exactly one
pipe is appended at x = BASE_WIDTH; in every other case no pipe is added. -/
theorem spawn_policy_cases (s : GameState) (r : ℚ)
    (hs : s.gameStarted = true) (ho : s.gameOver = false) :
    (survivors s = [] → (tick s r).pipes = [createPipe (BASE_WIDTH + 150) r]) ∧
    (∀ h : survivors s ≠ [],
      ((survivors s).getLast h).x < BASE_WIDTH - 200 →
        (tick s r).pipes = survivors s ++ [createPipe BASE_WIDTH r]) ∧
    (∀ h : survivors s ≠ [],
      ¬ ((survivors s).getLast h).x < BASE_WIDTH - 200 →
        (tick s r).pipes = survivors s) := by
  have hp : (tick s r).pipes = spawnStep r (survivors s) := by
    simp [tick, hs, ho, survivors]
  refine ⟨?_, ?_, ?_⟩
  · intro he; rw [hp, he, spawnStep_nil]
  · intro h hlt; rw [hp, spawnStep_last_lt r (survivors s) h hlt]
  · intro h hge; rw [hp, spawnStep_last_ge r (survivors s) h hge]

/-- A started state with no pipes at all. -/
def emptyPipesState : GameState :=
  { initialState with gameStarted := true }

/-- Witness for C7: from a started state with no pipes, one tick spawns
exactly one pipe at x = BASE_WIDTH + 150. -/
theorem spawn_policy_cases_witness :
    emptyPipesState.gameStarted = true ∧
    survivors emptyPipesState = [] ∧
    (tick emptyPipesState 0).pipes = [createPipe (BASE_WIDTH + 150) 0] :=
  ⟨rfl, rfl, (spawn_policy_cases emptyPipesState 0 rfl rfl).1 rfl⟩

/-- C8: for a random draw r in [0,1), the spawned gap band lies fully inside
the playfield with margin 50 at the top (50 <= gapY) and at the bottom
(gapY + gapHeight <= BASE_HEIGHT - 50). -/
theorem createPipe_gap_margins (x r : ℚ) (h0 : 0 ≤ r) (h1 : r < 1) :
    50 ≤ (createPipe x r).gapY ∧
    (createPipe x r).gapY + (createPipe x r).gapHeight ≤ BASE_HEIGHT - 50 ∧
    0 ≤ (createPipe x r).gapY ∧
    (createPipe x r).gapY + (createPipe x r).gapHeight ≤ BASE_HEIGHT := by
  have e1 : (createPipe x r).gapY = r * 300 + 50 := by
    norm_num [createPipe, BASE_HEIGHT, PIPE_GAP]
  have e2 : (createPipe x r).gapHeight = 200 := by
    norm_num [createPipe, PIPE_GAP]
  have h300 : (0:ℚ) ≤ r * 300 := by positivity
  have h300lt : r * 300 < 300 := by nlinarith
  rw [e1, e2]
  norm_num [BASE_HEIGHT]
  refine ⟨by linarith, by linarith, by linarith, by linarith⟩

/-- Witness for C8 at the draw r = 1/2. -/
theorem createPipe_gap_margins_witness :
    (0:ℚ) ≤ 1 / 2 ∧ (1:ℚ) / 2 < 1 ∧
    (50 ≤ (createPipe 0 (1 / 2)).gapY ∧
     (createPipe 0 (1 / 2)).gapY + (createPipe 0 (1 / 2)).gapHeight ≤ BASE_HEIGHT - 50 ∧
     0 ≤ (createPipe 0 (1 / 2)).gapY ∧
     (createPipe 0 (1 / 2)).gapY + (createPipe 0 (1 / 2)).gapHeight ≤ BASE_HEIGHT) :=
  ⟨by norm_num, by norm_num, createPipe_gap_margins 0 (1 / 2) (by norm_num) (by norm_num)⟩

/-- C9: a jump received while gameOver performs the reset, and the reset
state is exactly the initial state: bird at (BASE_WIDTH / 4, BASE_HEIGHT / 2)
with velocity 0 and radius BIRD_SIZE / 2, no pipes, score 0, both flags
false, and an inactive explosion with frame 0. -/
theorem reset_restores_initial_state (s : GameState) (h : s.gameOver = true) :
    jump s = initialState ∧
    resetGame = initialState ∧
    initialState.bird.x = BASE_WIDTH / 4 ∧
    initialState.bird.y = BASE_HEIGHT / 2 ∧
    initialState.bird.velocity = 0 ∧
    initialState.bird.radius = BIRD_SIZE / 2 ∧
    initialState.pipes = [] ∧
    initialState.score = 0 ∧
    initialState.gameStarted = false ∧
    initialState.gameOver = false ∧
    initialState.explosion.active = false ∧
    initialState.explosion.frame = 0 := by
  refine ⟨?_, rfl, rfl, rfl, rfl, rfl, rfl, rfl, rfl, rfl, rfl, rfl⟩
  simp [jump, h, resetGame, initialState]

/-- Witness for C9 at a concrete game-over state. -/
theorem reset_restores_initial_state_witness :
    overState.gameOver = true ∧ jump overState = initialState :=
  ⟨rfl, (reset_restores_initial_state overState rfl).1⟩

end Flappy

namespace Flappy

/-- C10: even on the tick that detects the collision, the returned state
commits the full update: the velocity has gravity added, the position has
the new velocity integrated, the bird x is unchanged, the pipes are the
moved, marked, culled and possibly spawned sequence (each moved pipe shifted
left by PIPE_SPEED), and the score keeps any gain earned this tick. -/
theorem collision_tick_commits_update (s : GameState) (r : ℚ)
    (hs : s.gameStarted = true) (ho : s.gameOver = false)
    (hc : (tick s r).gameOver = true) :
    (tick s r).bird.velocity = s.bird.velocity + GRAVITY ∧
    (tick s r).bird.y = s.bird.y + (s.bird.velocity + GRAVITY) ∧
    (tick s r).bird.x = s.bird.x ∧
    (tick s r).pipes = spawnStep r (cullPipes (markPassedList s.bird.x (movePipes s.pipes))) ∧
    (∀ i (hi : i < s.pipes.length),
      ((movePipes s.pipes).get ⟨i, by simpa [movePipes] using hi⟩).x
        = (s.pipes.get ⟨i, hi⟩).x - PIPE_SPEED) ∧
    (tick s r).score = s.score + scoreGain s.bird.x (movePipes s.pipes) := by
  refine ⟨?_, ?_, ?_, ?_, ?_, ?_⟩
  · simp [tick, hs, ho]
  · simp [tick, hs, ho]
  · simp [tick, hs, ho]
  · simp [tick, hs, ho]
  · intro i hi; simp [movePipes]
  · simp [tick, hs, ho]

/-- Witness for C10: the crash tick from `preCrashState` detects the
collision and still integrates gravity and keeps the score formula. -/
theorem collision_tick_commits_update_witness :
    (tick preCrashState 0).gameOver = true ∧
    (tick preCrashState 0).bird.velocity = preCrashState.bird.velocity + GRAVITY ∧
    (tick preCrashState 0).score
      = preCrashState.score + scoreGain preCrashState.bird.x (movePipes preCrashState.pipes) := by
  have hc : (tick preCrashState 0).gameOver = true := by
    norm_num [tick, preCrashState, checkCollision, spawnStep, cullPipes, markPassedList,
      markPipe, movePipes, scoreGain, createPipe, stepExplosion, GRAVITY, PIPE_SPEED,
      BASE_WIDTH, BASE_HEIGHT, PIPE_WIDTH, PIPE_GAP]
  have h := collision_tick_commits_update preCrashState 0 rfl rfl hc
  exact ⟨hc, h.1, h.2.2.2.2.2⟩

end Flappy
